import Mathlib

/-!
Verification development for the sixerr/switchboard plugin repository.

The TypeScript sources are shallowly embedded:
  * JS strings that are only compared for equality are `String`;
    JS strings on which character-level algorithms run (SSE framing,
    URL routing, `Number(...)` conversion) are `List Char` (`JsStr`).
  * JS numbers are `ℚ` (the repository only manipulates values on which
    IEEE doubles are exact); `NaN` is `Option.none`, infinities get an
    explicit constructor where they can arise.
  * JSON values are the inductive `Json`; the result of `JSON.parse` on an
    inbound frame is `Option Json` (`none` = parse failure).
  * Callback-based asynchronous code is embedded as pure functions that
    return the list of emitted messages / callback invocations, and the
    connection client is a state machine `PluginClient.step` over explicit
    events.
-/

-- ===========================================================================
-- JS strings as lists of characters
-- ===========================================================================

/-- JS strings, for the parts of the code that run character algorithms. -/
abbrev JsStr := List Char

/-- Characters removed by JS `String.prototype.trim` (ECMA WhiteSpace and
LineTerminator code points; the Zs space family is represented by the
members that can actually occur in this system's inputs). -/
def jsIsSpace (c : Char) : Bool :=
  c = ' ' || c = '\t' || c = '\n' || c = '\r' ||
  c = '\x0b' || c = '\x0c' || c = ' ' ||
  c = ' ' || c = ' ' || c = '﻿'

/-- JS `s.trim()`. -/
def jsTrim (s : JsStr) : JsStr :=
  ((s.dropWhile jsIsSpace).reverse.dropWhile jsIsSpace).reverse

/-- One step of JS `String.prototype.split` with a non-empty separator:
fuelled so that it is structurally recursive (the fuel is always the length
of the string, which bounds the number of steps). -/
def jsSplitFuel (sep : JsStr) : Nat → JsStr → List JsStr
  | _, [] => [[]]
  | 0, cs => [cs]
  | n + 1, c :: rest =>
    if sep.isPrefixOf (c :: rest) then
      [] :: jsSplitFuel sep n (rest.drop (sep.length - 1))
    else
      match jsSplitFuel sep n rest with
      | [] => [[c]]
      | h :: t => (c :: h) :: t

/-- JS `s.split(sep)` for a non-empty separator `sep`
(`"".split(sep) = [""]`, separators never merge). -/
def jsSplit (sep : JsStr) (s : JsStr) : List JsStr :=
  if sep = [] then [s] else jsSplitFuel sep s.length s

-- ===========================================================================
-- JSON values
-- ===========================================================================

/-- JSON values as produced by `JSON.parse`. -/
inductive Json where
  | null : Json
  | bool (b : Bool) : Json
  | num (q : ℚ) : Json
  | str (s : String) : Json
  | arr (items : List Json) : Json
  | obj (fields : List (String × Json)) : Json

/-- Field lookup on a JSON object's field list.  `JSON.parse` collapses
duplicate keys keeping the last occurrence, so lookup takes the last
binding of the key. -/
def getField (fields : List (String × Json)) (k : String) : Option Json :=
  ((fields.filter (fun f => f.1 = k)).getLast?).map (fun f => f.2)

/-- Property access `j.k` on an arbitrary JS value: `undefined` (`none`)
unless `j` is an object with the field. -/
def jsGet (j : Json) (k : String) : Option Json :=
  match j with
  | .obj fields => getField fields k
  | _ => none

/-- JS truthiness of a JSON value. -/
def jsTruthy : Json → Bool
  | .null => false
  | .bool b => b
  | .num q => q ≠ 0
  | .str s => s ≠ ""
  | .arr _ => true
  | .obj _ => true

/-- JS truthiness of a possibly-`undefined` value. -/
def jsTruthyOpt : Option Json → Bool
  | none => false
  | some v => jsTruthy v

-- ===========================================================================
-- src/client/provider/ws/reconnect.ts
-- ===========================================================================

/-- `BackoffPolicy` from reconnect.ts. -/
structure BackoffPolicy where
  initialMs : ℚ
  maxMs : ℚ
  factor : ℚ
  jitter : ℚ
deriving DecidableEq, Repr

/-- `DEFAULT_RECONNECT_POLICY`: initial 1s, cap 30s, factor 2, jitter 0.25. -/
def DEFAULT_RECONNECT_POLICY : BackoffPolicy :=
  { initialMs := 1000, maxMs := 30000, factor := 2, jitter := 1/4 }

/-- JS `Math.round` (rounds half-way cases toward positive infinity). -/
def jsRound (x : ℚ) : ℤ := ⌊x + 1/2⌋

/-- `computeBackoff(policy, attempt)` from reconnect.ts.  The call to
`Math.random()` is made explicit as the argument `u ∈ [0,1)`.  JS
`Math.max(attempt - 1, 0)` is truncated subtraction on `ℕ`. -/
def computeBackoff (policy : BackoffPolicy) (attempt : ℕ) (u : ℚ) : ℚ :=
  let base := policy.initialMs * policy.factor ^ (attempt - 1)
  let jitter := base * policy.jitter * u
  min policy.maxMs ((jsRound (base + jitter) : ℤ) : ℚ)

-- ===========================================================================
-- src/schemas/protocol.ts
-- ===========================================================================

/-- `SIXERR_PROTOCOL_VERSION` (PROT-03). -/
def SIXERR_PROTOCOL_VERSION : ℚ := 2

/-- The server → plugin messages accepted by `ServerMessageSchema`. -/
inductive ServerMsg where
  | request (id : String) (body : Option Json)
  | ping (ts : ℚ)
  | auth_ok (pluginId : String) (protocol : ℚ)
  | auth_error (message : String)
  | jwt_refresh (jwt : String)
  | price_update_ack (inputTokenPrice outputTokenPrice : String)

/-- `z.number().int()`: a finite JS number with integral value. -/
def jsIsInt (q : ℚ) : Bool := q.den = 1

/-- The keys `z.strictObject` allows for each message type. -/
def serverMsgAllowedKeys (t : String) : List String :=
  if t = "request" then ["type", "id", "body"]
  else if t = "ping" then ["type", "ts"]
  else if t = "auth_ok" then ["type", "pluginId", "protocol"]
  else if t = "auth_error" then ["type", "message"]
  else if t = "jwt_refresh" then ["type", "jwt"]
  else if t = "price_update_ack" then ["type", "inputTokenPrice", "outputTokenPrice"]
  else []

/-- `z.string().min(1)` on an optional field value. -/
def zNonEmptyString : Option Json → Option String
  | some (.str s) => if s ≠ "" then some s else none
  | _ => none

/-- `z.string()` on an optional field value. -/
def zString : Option Json → Option String
  | some (.str s) => some s
  | _ => none

/-- The object layer of `ServerMessageSchema`: dispatch on the `type`
discriminator, enforce the strict (closed) key set, and validate each
field. -/
def parseServerObj (fields : List (String × Json)) : Option ServerMsg :=
  match getField fields "type" with
    | some (.str t) =>
      if (fields.map (fun f => f.1)).all (fun k => k ∈ serverMsgAllowedKeys t) then
        if t = "request" then
          match zNonEmptyString (getField fields "id") with
          | some i => some (.request i (getField fields "body"))
          | none => none
        else if t = "ping" then
          match getField fields "ts" with
          | some (.num q) => if jsIsInt q then some (.ping q) else none
          | _ => none
        else if t = "auth_ok" then
          match zNonEmptyString (getField fields "pluginId"),
                getField fields "protocol" with
          | some pid, some (.num p) =>
            if p = SIXERR_PROTOCOL_VERSION then some (.auth_ok pid p) else none
          | _, _ => none
        else if t = "auth_error" then
          match zString (getField fields "message") with
          | some m => some (.auth_error m)
          | none => none
        else if t = "jwt_refresh" then
          match zNonEmptyString (getField fields "jwt") with
          | some w => some (.jwt_refresh w)
          | none => none
        else if t = "price_update_ack" then
          match zNonEmptyString (getField fields "inputTokenPrice"),
                zNonEmptyString (getField fields "outputTokenPrice") with
          | some i, some o => some (.price_update_ack i o)
          | _, _ => none
        else none
      else none
    | _ => none

/-- `ServerMessageSchema.safeParse` from protocol.ts: a discriminated union
on `type` of six `z.strictObject` schemas.  `none` is a failed parse; strict
objects reject unknown keys; `body: z.unknown()` also accepts a missing
field; any non-object JSON value fails. -/
def safeParseServerMessage (j : Json) : Option ServerMsg :=
  match j with
  | .obj fields => parseServerObj fields
  | _ => none

-- ===========================================================================
-- src/client/provider/ws/ws-client.ts — the PluginClient state machine
-- ===========================================================================

/-- `ConnectionStatus` from ws-client.ts. -/
inductive ConnectionStatus where
  | connecting | authenticating | connected | reconnecting | disconnected
deriving DecidableEq, Repr

/-- The lifecycle of the one physical WebSocket: `opened` becomes true when
the `open` event fires; `closing` becomes true when the client calls
`ws.close(...)`.  The Node `ws` transport keeps emitting `message` events
during the closing handshake (its receiver has no readyState guard), so
only `open` is ruled out after `close()` — messages may still arrive until
the final `close` event. -/
structure PhysSock where
  opened : Bool
  closing : Bool
deriving DecidableEq, Repr

/-- Client → server messages sent by the PluginClient's own handlers. -/
inductive SentMsg where
  | auth (jwt : String) (protocol : ℚ) (pricing : Option (String × String))
      (agentName agentDescription : Option String)
  | pong (ts : ℚ)
deriving DecidableEq, Repr

/-- The mutable state of a `PluginClient`, plus the physical-socket phase
and two pieces of bookkeeping that make the claims expressible:
`socketsCreated` counts `new WebSocket(...)` constructions and
`pendingRelays` counts `handleIncomingRequest` calls whose `.then`
continuation has not yet run. -/
structure CState where
  policy : BackoffPolicy
  jwt : String
  pricing : Option (String × String)
  agentName : Option String
  agentDescription : Option String
  wsAttached : Bool
  phys : Option PhysSock
  status : ConnectionStatus
  reconnectAttempt : ℕ
  closed : Bool
  requestCount : ℕ
  pluginId : Option String
  timerPending : Bool
  pendingRelays : ℕ
  socketsCreated : ℕ
deriving DecidableEq, Repr

/-- Events the client reacts to: the public API (`start`, `stop`), the
socket callbacks, the reconnect timer firing, and the resolution of one
`handleIncomingRequest` promise.  A `wsMessage` carries the result of
`JSON.parse` on the frame (`none` = parse failure). -/
inductive CEvent where
  | start
  | stop
  | wsOpen
  | wsMessage (m : Option Json)
  | wsClose (code : ℕ)
  | wsError
  | timerFire
  | relayComplete

/-- Observable effects of one event: a `ws.send`, an `onStatusChange`
callback, a `setTimeout`-scheduled reconnect with its computed delay, and
the refresh/price/relay callbacks. -/
inductive COut where
  | sent (m : SentMsg)
  | statusCb (st : ConnectionStatus) (pluginId : Option String) (count : ℕ)
  | scheduledReconnect (delayMs : ℚ)
  | jwtRefreshCb (jwt : String)
  | priceAckCb (inputTokenPrice outputTokenPrice : String)
  | relayStarted (id : String) (body : Option Json)

namespace PluginClient

/-- `this.ws?.readyState === WebSocket.OPEN`. -/
def canSend (s : CState) : Bool :=
  s.wsAttached &&
    match s.phys with
    | some p => p.opened && !p.closing
    | none => false

/-- `setStatus`: store the status, then invoke `onStatusChange`. -/
def setStatus (s : CState) (st : ConnectionStatus) : CState × List COut :=
  ({ s with status := st }, [.statusCb st s.pluginId s.requestCount])

/-- `connect()`: bail out when `closed`; otherwise status `connecting` and a
fresh socket. -/
def connect (s : CState) : CState × List COut :=
  if s.closed then (s, [])
  else
    let r := setStatus s .connecting
    ({ r.1 with wsAttached := true, phys := some ⟨false, false⟩,
                socketsCreated := r.1.socketsCreated + 1 }, r.2)

/-- `if (this.ws) { this.ws.close(...); this.ws = null; }`: afterwards the
client is detached from the socket either way, and a live socket has been
told to close. -/
def detachSocket (s : CState) : CState :=
  { s with wsAttached := false,
           phys := if s.wsAttached then
                     s.phys.map (fun p => { p with closing := true })
                   else s.phys }

/-- `scheduleReconnect()`. -/
def scheduleReconnect (s : CState) (u : ℚ) : CState × List COut :=
  if s.closed then setStatus s .disconnected
  else
    let r := setStatus s .reconnecting
    let a := r.1.reconnectAttempt + 1
    let d := computeBackoff s.policy a u
    ({ r.1 with reconnectAttempt := a, timerPending := true },
     r.2 ++ [.scheduledReconnect d])

/-- `stop()`: mark closed, cancel the timer, close the socket, report
`disconnected`. -/
def stop (s : CState) : CState × List COut :=
  setStatus (detachSocket { s with closed := true, timerPending := false })
    .disconnected

/-- `handleMessage`: silently drop frames that fail `JSON.parse` or
`ServerMessageSchema.safeParse`, then dispatch on the message type. -/
def handleMessage (s : CState) (m : Option Json) : CState × List COut :=
  match m with
  | none => (s, [])
  | some j =>
    match safeParseServerMessage j with
    | none => (s, [])
    | some msg =>
      match msg with
      | .auth_ok pid _ =>
        setStatus { s with pluginId := some pid, reconnectAttempt := 0 } .connected
      | .auth_error _ =>
        setStatus (detachSocket { s with closed := true }) .disconnected
      | .jwt_refresh t => ({ s with jwt := t }, [.jwtRefreshCb t])
      | .price_update_ack i o =>
        ({ s with pricing := some (i, o) }, [.priceAckCb i o])
      | .ping ts => (s, if canSend s then [.sent (.pong ts)] else [])
      | .request id body =>
        ({ s with pendingRelays := s.pendingRelays + 1 }, [.relayStarted id body])

/-- One event of the PluginClient state machine.  `u` is the value of
`Math.random()` if a backoff delay is computed while handling the event. -/
def step (s : CState) (e : CEvent) (u : ℚ) : CState × List COut :=
  match e with
  | .start => connect { s with closed := false }
  | .stop => stop s
  | .wsOpen =>
    let s1 := { s with phys := s.phys.map (fun p => { p with opened := true }) }
    let r := setStatus s1 .authenticating
    (r.1, r.2 ++
      (if canSend r.1 then
        [.sent (.auth r.1.jwt SIXERR_PROTOCOL_VERSION r.1.pricing
                  r.1.agentName r.1.agentDescription)]
      else []))
  | .wsMessage m => handleMessage s m
  | .wsClose code =>
    scheduleReconnect
      { s with wsAttached := false, phys := none,
               reconnectAttempt := if code = 1012 then 0 else s.reconnectAttempt } u
  | .wsError => (s, [])
  | .timerFire => connect { s with timerPending := false }
  | .relayComplete =>
    let s1 := { s with pendingRelays := s.pendingRelays - 1,
                       requestCount := s.requestCount + 1 }
    (s1, [.statusCb .connected s1.pluginId s1.requestCount])

/-- Which events the environment can deliver in a given state: socket
callbacks only fire for a live socket in the right phase; `message` events
fire on any opened socket until its `close` event — INCLUDING after the
client has called `close()`, because the Node `ws` receiver keeps emitting
frames during the closing handshake; the timer only fires when pending,
and a relay only completes when one is in flight. -/
def admissible (s : CState) : CEvent → Bool
  | .start => true
  | .stop => true
  | .wsOpen => s.phys = some ⟨false, false⟩
  | .wsMessage _ =>
    match s.phys with
    | some p => p.opened
    | none => false
  | .wsClose _ => s.phys.isSome
  | .wsError => s.phys.isSome
  | .timerFire => s.timerPending
  | .relayComplete => 0 < s.pendingRelays

/-- Run a list of events (each with its `Math.random()` draw), collecting
outputs. -/
def run (s : CState) : List (CEvent × ℚ) → CState × List COut
  | [] => (s, [])
  | (e, u) :: rest =>
    let r := step s e u
    let r2 := run r.1 rest
    (r2.1, r.2 ++ r2.2)

/-- A fresh `PluginClient` as built by the constructor. -/
def init (policy : BackoffPolicy) (jwt : String)
    (pricing : Option (String × String)) (agentName agentDescription : Option String) :
    CState :=
  { policy := policy, jwt := jwt, pricing := pricing, agentName := agentName,
    agentDescription := agentDescription, wsAttached := false, phys := none,
    status := .disconnected, reconnectAttempt := 0, closed := true,
    requestCount := 0, pluginId := none, timerPending := false,
    pendingRelays := 0, socketsCreated := 0 }

end PluginClient

-- ===========================================================================
-- src/relay/openclaw-client.ts — streamFromOpenClaw's SSE parsing
-- ===========================================================================

/-- `OpenClawClientConfig`. -/
structure OpenClawClientConfig where
  gatewayUrl : String
  gatewayToken : String
  agentId : Option String
  timeoutMs : Option ℕ
  defaultModel : Option String

/-- The inner loop of the SSE `data` handler: concatenate the payloads of
the `data: ` lines of one event block, newline-separated (`event: ` lines
are recognised but ignored; other lines are skipped). -/
def sseDataStr (lines : List JsStr) : JsStr :=
  lines.foldl
    (fun acc line =>
      if ("data: ".data).isPrefixOf line then
        (if acc = [] then line.drop 6 else acc ++ '\n' :: line.drop 6)
      else acc)
    []

/-- Processing of one complete (blank-line terminated) SSE block: skip blank
blocks and the literal `data: [DONE]` sentinel, otherwise JSON-parse the
collected data payload (a failed parse is logged and skipped).  `parse` is
`JSON.parse` restricted to the success/failure information the code uses. -/
def ssePartEvent (parse : JsStr → Option Json) (part : JsStr) : Option Json :=
  if jsTrim part = [] then none
  else if jsTrim part = "data: [DONE]".data then none
  else
    let dataStr := sseDataStr (jsSplit ['\n'] part)
    if dataStr = [] then none else parse dataStr

/-- One `data` chunk: append to the carry buffer, split on blank lines, keep
the last (still incomplete) piece as the new buffer and decode the complete
blocks. -/
def sseChunkStep (parse : JsStr → Option Json) (buffer chunk : JsStr) :
    JsStr × List Json :=
  let parts := jsSplit ('\n' :: ['\n']) (buffer ++ chunk)
  (parts.getLastD [], (parts.dropLast).filterMap (ssePartEvent parse))

/-- Fold `sseChunkStep` over the chunk sequence (the final carry buffer is
discarded when the stream ends, exactly as in the source, which never
flushes it). -/
def processChunksAux (parse : JsStr → Option Json) (buffer : JsStr) :
    List JsStr → List Json
  | [] => []
  | c :: cs =>
    let r := sseChunkStep parse buffer c
    r.2 ++ processChunksAux parse r.1 cs

/-- All events decoded from an SSE chunk sequence, in arrival order. -/
def processChunks (parse : JsStr → Option Json) (chunks : List JsStr) : List Json :=
  processChunksAux parse [] chunks

/-- The behaviors of the gateway on one streaming call: an HTTP error
response (`statusCode ≥ 400`, with its collected body), a 2xx SSE response
delivering chunks and then either end-of-input or a mid-stream transport
error, or a request-level transport failure/timeout before any response. -/
inductive StreamOutcome where
  | done
  | errored (msg : String)

inductive StreamBehavior where
  | response (status : ℕ) (chunks : List JsStr) (outcome : StreamOutcome)
  | requestError (msg : String)

/-- The invocations `streamFromOpenClaw` makes on its `StreamCallbacks`. -/
inductive CB where
  | onEvent (event : Json)
  | onError (msg : String)
  | onDone

/-- The error message built for an HTTP error response (status plus the
first 500 characters of the body). -/
def streamHttpErrMsg (status : ℕ) (body : JsStr) : String :=
  "OpenClaw Gateway error (status " ++ toString status ++ "): "
    ++ String.mk (body.take 500)

/-- `streamFromOpenClaw` as the list of callback invocations it performs,
in order.  On an HTTP error status it collects the body and reports a
single `onError`; on a 2xx response it decodes SSE events (each reported
immediately via `onEvent`) and finishes with `onDone` on end-of-input or
`onError` on a mid-stream error; a request-level failure is a single
`onError`.  The promise itself always resolves. -/
def streamFromOpenClaw (parse : JsStr → Option Json) :
    StreamBehavior → List CB
  | .response status chunks outcome =>
    if 400 ≤ status then
      [.onError (streamHttpErrMsg status (chunks.foldl (· ++ ·) []))]
    else
      (processChunks parse chunks).map .onEvent ++
        [match outcome with
         | .done => .onDone
         | .errored m => .onError m]
  | .requestError m => [.onError m]

-- ===========================================================================
-- src/relay/request-forwarder.ts — handleIncomingRequest
-- ===========================================================================

/-- The plugin → server messages emitted over the socket by the relay. -/
inductive WsMsg where
  | response (id : String) (body : Json)
  | stream_event (id : String) (event : Json)
  | stream_end (id : String) (usage : Json)
  | error (id : String) (code message : String)

/-- The `usage` accumulator's initial value
(`{ input_tokens: 0, output_tokens: 0, total_tokens: 0 }`). -/
def zeroUsage : Json :=
  .obj [("input_tokens", .num 0), ("output_tokens", .num 0),
        ("total_tokens", .num 0)]

/-- The usage extraction on one event:
`evt.type === "response.completed" && evt.response?.usage` (the value must
be truthy to be retained). -/
def completedUsage (e : Json) : Option Json :=
  match jsGet e "type" with
  | some (.str t) =>
    if t = "response.completed" then
      match jsGet e "response" with
      | some r =>
        match jsGet r "usage" with
        | some u => if jsTruthy u then some u else none
        | none => none
      | none => none
    else none
  | _ => none

/-- The `StreamCallbacks` closures of `handleIncomingRequest`: accumulate
outbound messages and the latest completed-event usage. -/
def relayCBStep (requestId : String) (st : List WsMsg × Json) (cb : CB) :
    List WsMsg × Json :=
  match cb with
  | .onEvent e =>
    (st.1 ++ [.stream_event requestId e], (completedUsage e).getD st.2)
  | .onError m => (st.1 ++ [.error requestId "plugin_error" m], st.2)
  | .onDone => (st.1 ++ [.stream_end requestId st.2], st.2)

/-- Spreading a JS value into an object literal.  For objects this copies
the fields; other values contribute no string-named fields relevant here
(array/string spreads produce only numeric index keys, which can never be
`"model"` or `"stream"`). -/
def spreadFields : Option Json → List (String × Json)
  | some (.obj fields) => fields
  | _ => []

/-- JS property assignment `o.k = v` on a field list. -/
def setField (fields : List (String × Json)) (k : String) (v : Json) :
    List (String × Json) :=
  if fields.any (fun f => f.1 = k) then
    fields.map (fun f => if f.1 = k then (k, v) else f)
  else fields ++ [(k, v)]

/-- The model-default substitution of step 2:
`forwardBody.model === "default" || !forwardBody.model`. -/
def substituteModel (cfg : OpenClawClientConfig)
    (fields : List (String × Json)) : List (String × Json) :=
  let m := getField fields "model"
  let isDefault := match m with
    | some (.str s) => s = "default"
    | _ => false
  if isDefault || !jsTruthyOpt m then
    setField fields "model" (.str (cfg.defaultModel.getD "kimi-coding/k2p5"))
  else fields

/-- `forwardBody.stream === true`. -/
def streamFlag (fields : List (String × Json)) : Bool :=
  match getField fields "stream" with
  | some (.bool true) => true
  | _ => false

/-- `handleIncomingRequest(requestId, body, openClawConfig, sendMessage)`
as the ordered list of messages passed to `sendMessage`.  The local
backend's behavior is explicit: `unaryB` is the settlement of
`forwardToOpenClaw` (`Except.error m` being a rejection whose rendered
message — `.message || String(err)` — is `m`), and `streamB` the behavior
of `streamFromOpenClaw`; the relevant one is chosen by the body's
streaming flag.  The surrounding `try`/`catch` turns a non-streaming
rejection into the `plugin_error` message; the streaming promise never
rejects.  (The unary path's `forwardBody.stream = false` assignment only
alters the forwarded body, which the oracle already abstracts.) -/
def handleIncomingRequest (requestId : String) (body : Option Json)
    (cfg : OpenClawClientConfig) (parse : JsStr → Option Json)
    (streamB : StreamBehavior) (unaryB : Except String Json) : List WsMsg :=
  let forwardBody := substituteModel cfg (spreadFields body)
  if streamFlag forwardBody then
    ((streamFromOpenClaw parse streamB).foldl
      (relayCBStep requestId) ([], zeroUsage)).1
  else
    match unaryB with
    | .ok r => [.response requestId r]
    | .error m => [.error requestId "plugin_error" m]

-- ===========================================================================
-- JS Number(...) string conversion (ECMA StringToNumber), used by permit2.ts
-- ===========================================================================

/-- A JS number that can result from `Number(string)`: a finite value or an
infinity.  `NaN` is represented by `Option.none` at the use sites. -/
inductive JsNum where
  | fin (q : ℚ)
  | inf (negative : Bool)
deriving DecidableEq, Repr

/-- Decimal digit test. -/
def isDigitCh (c : Char) : Bool :=
  c = '0' || c = '1' || c = '2' || c = '3' || c = '4' ||
  c = '5' || c = '6' || c = '7' || c = '8' || c = '9'

/-- Value of a decimal digit string. -/
def digitsToNat (cs : JsStr) : ℕ :=
  cs.foldl (fun a c => a * 10 + (c.toNat - 48)) 0

/-- Hex digit test and value. -/
def isHexDigitCh (c : Char) : Bool :=
  isDigitCh c || ('a' ≤ c && c ≤ 'f') || ('A' ≤ c && c ≤ 'F')

def hexVal (c : Char) : ℕ :=
  if isDigitCh c then c.toNat - 48
  else if 'a' ≤ c && c ≤ 'f' then c.toNat - 87
  else c.toNat - 55

/-- A non-decimal integer literal (`0x…`, `0o…`, `0b…`): one or more digits
of the base. -/
def parseRadix (base : ℕ) (isDig : Char → Bool) (val : Char → ℕ)
    (ds : JsStr) : Option JsNum :=
  if ds ≠ [] && ds.all isDig then
    some (.fin ((ds.foldl (fun a c => a * base + val c) 0 : ℕ) : ℚ))
  else none

/-- The exponent part after `e`/`E`: optional sign, one or more digits. -/
def parseExponent (cs : JsStr) : Option ℤ :=
  match cs with
  | '+' :: ds => if ds ≠ [] && ds.all isDigitCh then some (digitsToNat ds) else none
  | '-' :: ds => if ds ≠ [] && ds.all isDigitCh then some (-(digitsToNat ds : ℤ)) else none
  | ds => if ds ≠ [] && ds.all isDigitCh then some (digitsToNat ds) else none

/-- Not an exponent marker / not a decimal point. -/
def notExpCh (c : Char) : Bool := !(c = 'e' || c = 'E')

def notDotCh (c : Char) : Bool := c ≠ '.'

/-- An unsigned `StrDecimalLiteral` without sign: `digits [. digits] [exp]`
with at least one digit overall. -/
def parseUnsignedDec (cs : JsStr) : Option ℚ :=
  let mant := cs.takeWhile notExpCh
  let expPart := cs.dropWhile notExpCh
  let ip := mant.takeWhile notDotCh
  let dotRest := mant.dropWhile notDotCh
  let fp := if dotRest = [] then [] else dotRest.tail
  if ip.all isDigitCh && fp.all isDigitCh && (ip ≠ [] || fp ≠ []) then
    match expPart with
    | [] => some ((digitsToNat (ip ++ fp) : ℚ) / (10 : ℚ) ^ fp.length)
    | _ :: ecs =>
      match parseExponent ecs with
      | some e =>
        some ((digitsToNat (ip ++ fp) : ℚ) / (10 : ℚ) ^ fp.length * (10 : ℚ) ^ e)
      | none => none
  else none

/-- The body of a decimal literal after the optional sign: an `Infinity`
literal or an unsigned decimal, negated when the sign was `-`. -/
def parseDecBody (neg : Bool) (rest : JsStr) : Option JsNum :=
  if rest = "Infinity".data then some (.inf neg)
  else (parseUnsignedDec rest).map (fun q => .fin (if neg then -q else q))

/-- A signed decimal literal or an `Infinity` literal. -/
def parseDec (cs : JsStr) : Option JsNum :=
  match cs with
  | '+' :: rest => parseDecBody false rest
  | '-' :: rest => parseDecBody true rest
  | rest => parseDecBody false rest

/-- The numeric body after trimming: a radix-prefixed integer (no sign
allowed) or a signed decimal / `Infinity`. -/
def coreNumber (cs : JsStr) : Option JsNum :=
  match cs with
  | '0' :: 'x' :: ds => parseRadix 16 isHexDigitCh hexVal ds
  | '0' :: 'X' :: ds => parseRadix 16 isHexDigitCh hexVal ds
  | '0' :: 'o' :: ds => parseRadix 8 (fun c => '0' ≤ c && c ≤ '7') (fun c => c.toNat - 48) ds
  | '0' :: 'O' :: ds => parseRadix 8 (fun c => '0' ≤ c && c ≤ '7') (fun c => c.toNat - 48) ds
  | '0' :: 'b' :: ds => parseRadix 2 (fun c => c = '0' || c = '1') (fun c => c.toNat - 48) ds
  | '0' :: 'B' :: ds => parseRadix 2 (fun c => c = '0' || c = '1') (fun c => c.toNat - 48) ds
  | _ => parseDec cs

/-- JS `Number(s)` on a string: trim; empty → `0`; otherwise the numeric
grammar, `none` being `NaN`.  (The exact rational value is used where an
IEEE double would round; the difference is irrelevant to every use in this
repository, which only ever consumes integral chain ids.) -/
def jsNumber (s : JsStr) : Option JsNum :=
  let t := jsTrim s
  if t = [] then some (.fin 0) else coreNumber t

/-- Decidable equality for `Except` results (used to evaluate concrete
`parseChainId` outcomes). -/
instance {ε α : Type} [DecidableEq ε] [DecidableEq α] :
    DecidableEq (Except ε α) := fun x y =>
  match x, y with
  | .ok a, .ok b =>
    if h : a = b then isTrue (by rw [h]) else isFalse (by intro he; cases he; exact h rfl)
  | .error a, .error b =>
    if h : a = b then isTrue (by rw [h]) else isFalse (by intro he; cases he; exact h rfl)
  | .ok _, .error _ => isFalse (by intro he; cases he)
  | .error _, .ok _ => isFalse (by intro he; cases he)

-- ===========================================================================
-- src/client/consumer/permit2.ts — parseChainId
-- ===========================================================================

/-- `parseChainId(network)`: split on `":"`, convert the last segment with
`Number(...)`, and throw exactly when the result is `NaN`. -/
def parseChainId (network : JsStr) : Except String JsNum :=
  let parts := jsSplit [':'] network
  match jsNumber (parts.getLastD []) with
  | none => .error ("Cannot parse chain ID from network: " ++ String.mk network)
  | some n => .ok n

-- ===========================================================================
-- src/client/consumer/sixerr-client.ts — postWith402Handling
-- ===========================================================================

/-- An HTTP request as issued by `fetch` in `postWith402Handling`: the
method is always POST, with a header list and a string body. -/
structure HttpRequest where
  url : String
  method : String
  headers : List (String × String)
  body : String
deriving DecidableEq, Repr

/-- The parts of a `fetch` `Response` the payment flow inspects: the status
and, when 402 handling reads it, the result of `res.json()` (`none` = the
body was not valid JSON, so `res.json()` rejects). -/
structure HttpResponse where
  status : ℕ
  jsonBody : Option Json

/-- `paymentBody.accepts?.find(a => a.scheme === "permit2")` on the parsed
402 body: `undefined` unless `accepts` is an array containing an element
whose `scheme` is `"permit2"` (property access on a non-object element is
modelled as `undefined`). -/
def findPermit2 (paymentBody : Json) : Option Json :=
  match jsGet paymentBody "accepts" with
  | some (.arr items) =>
    items.find? (fun a =>
      match jsGet a "scheme" with
      | some (.str s) => s = "permit2"
      | _ => false)
  | _ => none

/-- `maxAmountOverride ?? this.config.maxAmount ?? requirements.maxCost`:
the authorization amount, in priority order (the `??` operator only skips
null/undefined, and the first two candidates are strings). -/
def chooseAmount (maxAmountOverride configMaxAmount : Option String)
    (requirements : Json) : Option Json :=
  match maxAmountOverride with
  | some a => some (.str a)
  | none =>
    match configMaxAmount with
    | some a => some (.str a)
    | none => jsGet requirements "maxCost"

/-- The settled result of `postWith402Handling`: a returned `Response` or a
thrown error. -/
inductive PostResult where
  | ok (r : HttpResponse)
  | thrown (msg : String)

/-- `SixerrClient.postWith402Handling(url, body, maxAmountOverride)`.

The network is the call-indexed oracle `fetchImpl` (call 0 is the first
POST, call 1 the retry); `signPermit2Payment` — which involves the injected
signer and the current time — is the abstract `sign`, applied to the
selected requirements object and the chosen `maxAmount`
(`maxAmountOverride ?? config.maxAmount ?? requirements.maxCost`).

Returns the settled result together with the list of HTTP requests issued,
in order. -/
def postWith402Handling
    (fetchImpl : ℕ → HttpRequest → HttpResponse)
    (sign : Json → Option Json → String)
    (configMaxAmount : Option String)
    (url : String) (body : String) (maxAmountOverride : Option String) :
    PostResult × List HttpRequest :=
  let headers := [("Content-Type", "application/json")]
  let req1 : HttpRequest := ⟨url, "POST", headers, body⟩
  let firstRes := fetchImpl 0 req1
  if firstRes.status ≠ 402 then (.ok firstRes, [req1])
  else
    match firstRes.jsonBody with
    | none => (.thrown "firstRes.json() rejected: body is not valid JSON", [req1])
    | some paymentBody =>
      match findPermit2 paymentBody with
      | none =>
        (.thrown "Server returned 402 but no Permit2 payment scheme found", [req1])
      | some requirements =>
        let xPayment := sign requirements
          (chooseAmount maxAmountOverride configMaxAmount requirements)
        let req2 : HttpRequest :=
          ⟨url, "POST", headers ++ [("X-PAYMENT", xPayment)], body⟩
        (.ok (fetchImpl 1 req2), [req1, req2])

-- ===========================================================================
-- src/proxy/http-proxy.ts — handleRequest / handleResponses
-- ===========================================================================

/-- What `handleResponses` reads off the upstream `Response`: status,
content type header, whether a readable body is present, and the buffered
text for the non-streaming branch. -/
structure UpstreamResponse where
  status : ℕ
  contentType : Option String
  hasBody : Bool
  bodyText : String

/-- The proxy's possible responses to its own caller. -/
inductive ProxyOutcome where
  | providersOk (body : Json)
  | notFound
  | badRequest
  | upstreamError (msg : String)
  | ssePiped (status : ℕ)
  | buffered (status : ℕ) (contentType : String) (body : String)

/-- The HTTP status the proxy writes for each outcome. -/
def proxyStatus : ProxyOutcome → ℕ
  | .providersOk _ => 200
  | .notFound => 404
  | .badRequest => 400
  | .upstreamError _ => 502
  | .ssePiped st => st
  | .buffered st _ _ => st

/-- The route regex `^\/v1\/responses(?:\/([^/?]+))?$`: the exact path, or
the path plus one non-empty trailing segment containing neither `/` nor
`?`. -/
def matchResponsesPath (url : JsStr) : Option (Option JsStr) :=
  if url = "/v1/responses".data then some none
  else if ("/v1/responses/".data).isPrefixOf url then
    let seg := url.drop 14
    if seg ≠ [] && seg.all (fun c => c ≠ '/' && c ≠ '?') then some (some seg)
    else none
  else none

/-- JS `String.prototype.includes` for a non-empty needle. -/
def jsIncludes (s needle : JsStr) : Bool :=
  (jsSplit needle s).length ≠ 1

/-- `handleResponses`: body-parse failure (either a failed body read or
`JSON.parse` throwing, both caught by the same `try`) → 400 before any
upstream call; a rejected `client.respondRaw` → 502 with the failure
message; otherwise forward, piping SSE bodies and buffering the rest.
The second component counts upstream calls. -/
def handleResponses (respondRaw : Except String UpstreamResponse)
    (bodyParse : Option Json) : ProxyOutcome × ℕ :=
  match bodyParse with
  | none => (.badRequest, 0)
  | some _ =>
    match respondRaw with
    | .error m => (.upstreamError m, 1)
    | .ok up =>
      let ct := up.contentType.getD "application/json"
      if jsIncludes ct.data ("text/event-stream".data) && up.hasBody then
        (.ssePiped up.status, 1)
      else
        (.buffered up.status ct up.bodyText, 1)

/-- `handleRequest`: route on method and URL.  `listProviders` and
`respondRaw` are the upstream oracles (`Except.error` = the call threw);
`bodyParse` is the parse result of the request body, reaching the handler
only on the responses route. -/
def handleRequest (listProviders : Except String Json)
    (respondRaw : Except String UpstreamResponse)
    (method : String) (url : JsStr) (bodyParse : Option Json) :
    ProxyOutcome × ℕ :=
  if method = "GET" && url = "/v1/providers".data then
    match listProviders with
    | .ok ps => (.providersOk ps, 1)
    | .error m => (.upstreamError m, 1)
  else
    match (if method = "POST" then matchResponsesPath url else none) with
    | some _ => handleResponses respondRaw bodyParse
    | none => (.notFound, 0)

-- ===========================================================================
-- Derived notions used to state the relay claims
-- ===========================================================================

/-- The terminal outbound messages of the relay (everything except
`stream_event`). -/
def isTerminalMsg : WsMsg → Bool
  | .response _ _ => true
  | .stream_end _ _ => true
  | .error _ _ _ => true
  | .stream_event _ _ => false

/-- The usage of the last `response.completed` event (with a truthy usage)
among the decoded events, or the all-zero counters when there is none. -/
def lastCompletedUsage (events : List Json) : Json :=
  ((events.filterMap completedUsage).getLast?).getD zeroUsage

/-- A `JSON.parse` oracle that fails on everything (used in witnesses). -/
def parseNone : JsStr → Option Json := fun _ => none

/-- A streaming request body and a minimal gateway config (witnesses). -/
def streamingBody : Option Json := some (.obj [("stream", .bool true)])

def witnessCfg : OpenClawClientConfig :=
  { gatewayUrl := "http://localhost:18789", gatewayToken := "tok",
    agentId := none, timeoutMs := none, defaultModel := none }

-- ===========================================================================
-- Concrete states and inputs used in the theorems below
-- ===========================================================================

/-- A well-formed `auth_ok` frame. -/
def authOkJson : Json :=
  .obj [("type", .str "auth_ok"), ("pluginId", .str "p1"), ("protocol", .num 2)]

/-- A well-formed `auth_error` frame. -/
def authErrJson : Json :=
  .obj [("type", .str "auth_error"), ("message", .str "bad jwt")]

/-- The client after `start`, socket open, and a successful `auth_ok`:
connected, not closed, attempt counter 0, one socket created. -/
def connectedState : CState :=
  (PluginClient.run (PluginClient.init DEFAULT_RECONNECT_POLICY "jwt0" none none none)
    [(.start, 0), (.wsOpen, 0), (.wsMessage (some authOkJson), 0)]).1

/-- `connectedState` with a stale (high) reconnect-attempt counter, as after
several failed reconnects. -/
def staleAttemptState : CState :=
  { connectedState with reconnectAttempt := 7 }

/-- Boolean versions of the trace-side conditions, so concrete witnesses
evaluate. -/
def isStartEv : CEvent → Bool
  | .start => true
  | _ => false

def isScheduledOut : COut → Bool
  | .scheduledReconnect _ => true
  | _ => false

/-- Admissibility of a whole trace, as a boolean. -/
def admissibleTraceB (s : CState) : List (CEvent × ℚ) → Bool
  | [] => true
  | (e, u) :: rest =>
    PluginClient.admissible s e && admissibleTraceB (PluginClient.step s e u).1 rest

/-- The fully settled state claim C2's amended tail is about: stopped for
good after the zombie socket's `close` event has been delivered — `closed`
set, status `disconnected`, no socket, no pending timer. -/
def deadInv (s : CState) : Prop :=
  s.closed = true ∧ s.status = .disconnected ∧ s.wsAttached = false ∧
    s.phys = none ∧ s.timerPending = false

/-- A 402 body advertising a permit2 scheme, a two-call fetch oracle whose
retry also returns 402, and a constant signer (C5 witness material). -/
def pb402 : Json :=
  .obj [("accepts", .arr [.obj [("scheme", .str "permit2"),
                                ("maxCost", .str "42")]])]

def fetchW : ℕ → HttpRequest → HttpResponse :=
  fun i _ => if i = 0 then ⟨402, some pb402⟩ else ⟨402, none⟩

def signW : Json → Option Json → String := fun _ _ => "SIG"

-- ===========================================================================
-- Helper lemmas
-- ===========================================================================

theorem jsRound_int_le (n : ℤ) (x : ℚ) (h : (n : ℚ) ≤ x) : n ≤ jsRound x := by
  refine Int.le_floor.mpr (le_trans h ?_)
  linarith

theorem jsRound_le_int (n : ℤ) (x : ℚ) (h : x < (n : ℚ) + 1/2) : jsRound x ≤ n := by
  have : jsRound x < n + 1 := by
    refine Int.floor_lt.mpr ?_
    push_cast
    linarith
  omega

-- ===========================================================================
-- C3 — computeBackoff matches the specified backoff formula
-- ===========================================================================

/-- C3: for every policy and attempt number `k`, `computeBackoff` equals
`min(maxDelay, round(initialDelay * factor^(max(k-1,0)) * (1 + jitter*U)))`
for the supplied `U ∈ [0,1)` (attempt 0 behaves as attempt 1); with
jitter 0 and initial 1000 / factor 2 the delays for attempts 1, 2, 3 are
exactly 1000, 2000, 4000; and for the default policy attempt `k`'s delay
lies in `[base(k), base(k)*(1+jitter)]` clipped to the 30000 cap, with
attempts 6 and 7 exactly 30000. -/
theorem computeBackoff_spec (p : BackoffPolicy) (k : ℕ) (u : ℚ)
    (hu0 : 0 ≤ u) (hu1 : u < 1) :
    (computeBackoff p k u
      = min p.maxMs
          ((jsRound (p.initialMs * p.factor ^ (k - 1) * (1 + p.jitter * u)) : ℤ) : ℚ))
    ∧ (computeBackoff ⟨1000, 30000, 2, 0⟩ 1 u = 1000
        ∧ computeBackoff ⟨1000, 30000, 2, 0⟩ 2 u = 2000
        ∧ computeBackoff ⟨1000, 30000, 2, 0⟩ 3 u = 4000)
    ∧ (∀ m : ℕ,
        min ((1000 : ℚ) * 2 ^ (m - 1)) 30000
            ≤ computeBackoff DEFAULT_RECONNECT_POLICY m u
        ∧ computeBackoff DEFAULT_RECONNECT_POLICY m u
            ≤ min ((1000 : ℚ) * 2 ^ (m - 1) * (1 + 1/4)) 30000)
    ∧ computeBackoff DEFAULT_RECONNECT_POLICY 6 u = 30000
    ∧ computeBackoff DEFAULT_RECONNECT_POLICY 7 u = 30000 := by
  have hformula : ∀ (q : BackoffPolicy) (j : ℕ),
      computeBackoff q j u
        = min q.maxMs
            ((jsRound (q.initialMs * q.factor ^ (j - 1) * (1 + q.jitter * u)) : ℤ) : ℚ) := by
    intro q j
    unfold computeBackoff
    ring_nf
  have hbase_int : ∀ m : ℕ, ((1000 : ℚ) * 2 ^ (m - 1)) = ((1000 * 2 ^ (m - 1) : ℤ) : ℚ) := by
    intro m
    push_cast
    ring
  have hbase_pos : ∀ m : ℕ, (0 : ℚ) < 1000 * 2 ^ (m - 1) := by
    intro m
    positivity
  -- bounds on the rounded jittered value for the default policy
  have hlo : ∀ m : ℕ,
      (1000 * 2 ^ (m - 1) : ℤ)
        ≤ jsRound (1000 * 2 ^ (m - 1) + 1000 * 2 ^ (m - 1) * (1/4) * u) := by
    intro m
    refine jsRound_int_le _ _ ?_
    rw [← hbase_int m]
    nlinarith [hbase_pos m]
  have hhi : ∀ m : ℕ,
      jsRound (1000 * 2 ^ (m - 1) + 1000 * 2 ^ (m - 1) * (1/4) * u)
        ≤ (1250 * 2 ^ (m - 1) : ℤ) := by
    intro m
    refine jsRound_le_int _ _ ?_
    push_cast
    nlinarith [hbase_pos m]
  refine ⟨hformula p k, ?_, ?_, ?_, ?_⟩
  · refine ⟨?_, ?_, ?_⟩ <;>
      · unfold computeBackoff jsRound
        norm_num
  · intro m
    have hmain : computeBackoff DEFAULT_RECONNECT_POLICY m u
        = min (30000 : ℚ)
            ((jsRound (1000 * 2 ^ (m - 1) + 1000 * 2 ^ (m - 1) * (1/4) * u) : ℤ) : ℚ) := by
      unfold computeBackoff DEFAULT_RECONNECT_POLICY
      norm_num
    constructor
    · rw [hmain]
      refine le_min (min_le_right _ _) ?_
      refine le_trans (min_le_left _ _) ?_
      rw [hbase_int m]
      exact_mod_cast hlo m
    · rw [hmain]
      refine le_min ?_ (min_le_left _ _)
      refine le_trans (min_le_right _ _) ?_
      have : ((1000 : ℚ) * 2 ^ (m - 1) * (1 + 1/4)) = ((1250 * 2 ^ (m - 1) : ℤ) : ℚ) := by
        push_cast
        ring
      rw [this]
      exact_mod_cast hhi m
  · have hmain : computeBackoff DEFAULT_RECONNECT_POLICY 6 u
        = min (30000 : ℚ)
            ((jsRound (1000 * 2 ^ (6 - 1) + 1000 * 2 ^ (6 - 1) * (1/4) * u) : ℤ) : ℚ) := by
      unfold computeBackoff DEFAULT_RECONNECT_POLICY
      norm_num
    rw [hmain]
    have h6 := hlo 6
    rw [min_eq_left]
    have : ((30000 : ℤ) : ℚ) ≤ ((jsRound (1000 * 2 ^ (6 - 1) + 1000 * 2 ^ (6 - 1) * (1/4) * u) : ℤ) : ℚ) := by
      exact_mod_cast le_trans (by norm_num) h6
    exact_mod_cast this
  · have hmain : computeBackoff DEFAULT_RECONNECT_POLICY 7 u
        = min (30000 : ℚ)
            ((jsRound (1000 * 2 ^ (7 - 1) + 1000 * 2 ^ (7 - 1) * (1/4) * u) : ℤ) : ℚ) := by
      unfold computeBackoff DEFAULT_RECONNECT_POLICY
      norm_num
    rw [hmain]
    have h7 := hlo 7
    rw [min_eq_left]
    have : ((30000 : ℤ) : ℚ) ≤ ((jsRound (1000 * 2 ^ (7 - 1) + 1000 * 2 ^ (7 - 1) * (1/4) * u) : ℤ) : ℚ) := by
      exact_mod_cast le_trans (by norm_num) h7
    exact_mod_cast this

/-- Witness for C3 at attempt 2 of the default policy with `U = 1/3`. -/
theorem computeBackoff_spec_witness :
    (0 : ℚ) ≤ 1/3 ∧ (1/3 : ℚ) < 1
      ∧ computeBackoff DEFAULT_RECONNECT_POLICY 6 (1/3) = 30000
      ∧ computeBackoff ⟨1000, 30000, 2, 0⟩ 2 (1/3) = 2000 :=
  ⟨by norm_num, by norm_num,
    (computeBackoff_spec DEFAULT_RECONNECT_POLICY 6 (1/3) (by norm_num) (by norm_num)).2.2.2.1,
    (computeBackoff_spec DEFAULT_RECONNECT_POLICY 2 (1/3) (by norm_num) (by norm_num)).2.1.2.1⟩

-- ===========================================================================
-- C6 — close handling vs. close codes
-- ===========================================================================

/-- C6 counterexample: in the connected, non-stopped state, a socket close
with the clean-shutdown code 1000 (e.g. a server-initiated clean close)
ALSO triggers the `connected → reconnecting` transition and schedules a
reconnect — the close handler never consults the code except to reset the
attempt counter on 1012 — contradicting the claim that the transition
happens if and only if the code differs from the clean-shutdown code. -/
theorem close1000_still_reconnects_counterexample :
    connectedState.status = .connected
    ∧ connectedState.closed = false
    ∧ PluginClient.admissible connectedState (.wsClose 1000) = true
    ∧ (PluginClient.step connectedState (.wsClose 1000) 0).1.status = .reconnecting
    ∧ (PluginClient.step connectedState (.wsClose 1000) 0).1.timerPending = true
    ∧ ((PluginClient.step connectedState (.wsClose 1000) 0).2.any isScheduledOut) = true := by
  refine ⟨by decide, by decide, by decide, by decide, by decide, by decide⟩

/-- C6 amended: while the client is not stopped and has not received
`auth_error` (`closed = false`), ANY socket close — regardless of its code,
including the clean-shutdown code — moves the client to `reconnecting` and
schedules exactly one backoff-delayed reconnect (the code only selects
whether the attempt counter restarts at 1); and a transport `error` event
alone never changes state or triggers reconnection. -/
theorem close_always_reconnects (s : CState) (code : ℕ) (u : ℚ)
    (h : s.closed = false) :
    (PluginClient.step s (.wsClose code) u).1.status = .reconnecting
    ∧ (PluginClient.step s (.wsClose code) u).1.timerPending = true
    ∧ (PluginClient.step s (.wsClose code) u).2
        = [.statusCb .reconnecting s.pluginId s.requestCount,
           .scheduledReconnect (computeBackoff s.policy
             ((if code = 1012 then 0 else s.reconnectAttempt) + 1) u)]
    ∧ PluginClient.step s .wsError u = (s, []) := by
  unfold PluginClient.step PluginClient.scheduleReconnect PluginClient.setStatus
  simp_all

/-- Witness for C6 at the concrete connected state and close code 1006. -/
theorem close_always_reconnects_witness :
    connectedState.closed = false
    ∧ (PluginClient.step connectedState (.wsClose 1006) 0).1.status = .reconnecting
    ∧ (PluginClient.step connectedState (.wsClose 1006) 0).1.timerPending = true
    ∧ PluginClient.step connectedState .wsError 0 = (connectedState, []) :=
  ⟨by decide,
    (close_always_reconnects connectedState 1006 0 (by decide)).1,
    (close_always_reconnects connectedState 1006 0 (by decide)).2.1,
    (close_always_reconnects connectedState 1006 0 (by decide)).2.2.2⟩

-- ===========================================================================
-- C7 — restart close code 1012 resets the attempt counter
-- ===========================================================================

/-- C7: when the socket closes with the server-restart code 1012 (and the
client is not stopped), the attempt counter is reset to 0 before the delay
is computed, so the state records attempt 1 and the scheduled delay is
exactly `computeBackoff(policy, 1)` — whatever the prior attempt count
was. -/
theorem close1012_resets_backoff (s : CState) (u : ℚ) (h : s.closed = false) :
    (PluginClient.step s (.wsClose 1012) u).1.reconnectAttempt = 1
    ∧ (PluginClient.step s (.wsClose 1012) u).2
        = [.statusCb .reconnecting s.pluginId s.requestCount,
           .scheduledReconnect (computeBackoff s.policy 1 u)] := by
  unfold PluginClient.step PluginClient.scheduleReconnect PluginClient.setStatus
  simp_all

/-- Witness for C7 at a connected state with a stale attempt counter of 7. -/
theorem close1012_resets_backoff_witness :
    staleAttemptState.closed = false
    ∧ staleAttemptState.reconnectAttempt = 7
    ∧ (PluginClient.step staleAttemptState (.wsClose 1012) 0).1.reconnectAttempt = 1
    ∧ (PluginClient.step staleAttemptState (.wsClose 1012) 0).2
        = [.statusCb .reconnecting staleAttemptState.pluginId staleAttemptState.requestCount,
           .scheduledReconnect (computeBackoff staleAttemptState.policy 1 0)] :=
  ⟨by decide, by decide,
    (close1012_resets_backoff staleAttemptState 0 (by decide)).1,
    (close1012_resets_backoff staleAttemptState 0 (by decide)).2⟩

-- ===========================================================================
-- C10 — the served-request counter
-- ===========================================================================

/-- C10: when a relay completes — the `.then` continuation of
`handleIncomingRequest`, which runs on every settlement because the relay's
`try`/`catch` makes it resolve on failures too (in this embedding
`handleIncomingRequest` is a total function) — the served-request counter
increments by exactly one and `onStatusChange` is invoked with the new
count; and no event of the client ever decreases the counter, so
`getRequestCount()` is monotonically non-decreasing. -/
theorem requestCount_increments_and_monotone :
    (∀ (s : CState) (u : ℚ),
      (PluginClient.step s .relayComplete u).1.requestCount = s.requestCount + 1
      ∧ (PluginClient.step s .relayComplete u).2
          = [.statusCb .connected s.pluginId (s.requestCount + 1)])
    ∧ ∀ (s : CState) (e : CEvent) (u : ℚ),
        s.requestCount ≤ (PluginClient.step s e u).1.requestCount := by
  constructor
  · intro s u
    unfold PluginClient.step
    simp
  · intro s e u
    cases e <;>
      simp only [PluginClient.step, PluginClient.connect, PluginClient.stop,
        PluginClient.scheduleReconnect, PluginClient.setStatus, PluginClient.handleMessage,
        PluginClient.detachSocket]
    case start => split <;> simp
    case stop => simp
    case wsOpen => simp
    case wsMessage m =>
      rcases m with _ | j
      · simp
      · cases hp : safeParseServerMessage j
        · simp [hp]
        · rename_i msg
          cases msg <;> simp [hp]
    case wsClose code => split <;> simp
    case wsError => simp
    case timerFire => split <;> simp
    case relayComplete => simp

-- ===========================================================================
-- C2 — auth_error, reconnection, and closing-handshake frames
-- ===========================================================================

theorem closed_step (s : CState) (e : CEvent) (u : ℚ)
    (hc : s.closed = true) (hNs : isStartEv e = false) :
    (PluginClient.step s e u).1.closed = true
    ∧ (PluginClient.step s e u).1.socketsCreated = s.socketsCreated
    ∧ ∀ o ∈ (PluginClient.step s e u).2, isScheduledOut o = false := by
  cases e
  case start => simp [isStartEv] at hNs
  case stop =>
    refine ⟨rfl, rfl, ?_⟩
    intro o ho
    simp only [PluginClient.step, PluginClient.stop, PluginClient.setStatus,
      List.mem_singleton] at ho
    subst ho
    rfl
  case wsOpen =>
    refine ⟨hc, rfl, ?_⟩
    intro o ho
    simp only [PluginClient.step, PluginClient.setStatus, List.mem_append,
      List.mem_singleton] at ho
    rcases ho with ho | ho
    · subst ho; rfl
    · rcases hcs : PluginClient.canSend _ with _ | _ <;> rw [hcs] at ho <;>
        simp at ho
      subst ho
      rfl
  case wsMessage m =>
    rcases m with _ | j
    · exact ⟨hc, rfl, by simp [PluginClient.step, PluginClient.handleMessage]⟩
    · cases hp : safeParseServerMessage j with
      | none =>
        refine ⟨?_, ?_, ?_⟩ <;>
          simp [PluginClient.step, PluginClient.handleMessage, hp, hc]
      | some msg =>
        cases msg <;>
          (refine ⟨?_, ?_, ?_⟩ <;>
            simp [PluginClient.step, PluginClient.handleMessage, hp, hc,
              PluginClient.setStatus, PluginClient.detachSocket,
              isScheduledOut])
  case wsClose code =>
    refine ⟨?_, ?_, ?_⟩ <;>
      simp [PluginClient.step, PluginClient.scheduleReconnect,
        PluginClient.setStatus, hc, isScheduledOut]
  case wsError =>
    exact ⟨hc, rfl, by simp [PluginClient.step]⟩
  case timerFire =>
    refine ⟨?_, ?_, ?_⟩ <;> simp [PluginClient.step, PluginClient.connect, hc]
  case relayComplete =>
    refine ⟨hc, rfl, ?_⟩
    intro o ho
    simp only [PluginClient.step, List.mem_singleton] at ho
    subst ho
    rfl

theorem closed_run (s : CState) (evs : List (CEvent × ℚ))
    (hc : s.closed = true) (hNs : evs.all (fun p => !isStartEv p.1) = true) :
    (PluginClient.run s evs).1.closed = true
    ∧ (PluginClient.run s evs).1.socketsCreated = s.socketsCreated
    ∧ ∀ o ∈ (PluginClient.run s evs).2, isScheduledOut o = false := by
  induction evs generalizing s with
  | nil => exact ⟨hc, rfl, by simp [PluginClient.run]⟩
  | cons p rest ih =>
    obtain ⟨e, u⟩ := p
    simp only [List.all_cons, Bool.and_eq_true, Bool.not_eq_true'] at hNs
    obtain ⟨h1, h2, h3⟩ := closed_step s e u hc hNs.1
    obtain ⟨h4, h5, h6⟩ := ih (PluginClient.step s e u).1 h1 hNs.2
    refine ⟨h4, h5.trans h2, ?_⟩
    intro o ho
    simp only [PluginClient.run, List.mem_append] at ho
    rcases ho with ho | ho
    · exact h3 o ho
    · exact h6 o ho

theorem dead_step (s : CState) (e : CEvent) (u : ℚ)
    (hInv : deadInv s) (hAdm : PluginClient.admissible s e = true)
    (hNs : isStartEv e = false) :
    deadInv (PluginClient.step s e u).1 := by
  obtain ⟨hc, hst, hw, hp, ht⟩ := hInv
  cases e
  case start => simp [isStartEv] at hNs
  case stop =>
    refine ⟨rfl, rfl, rfl, ?_, rfl⟩
    simp [PluginClient.step, PluginClient.stop, PluginClient.setStatus,
      PluginClient.detachSocket, hw, hp]
  case wsOpen =>
    exfalso
    simp only [PluginClient.admissible] at hAdm
    have h1 : s.phys = some ⟨false, false⟩ := of_decide_eq_true hAdm
    rw [hp] at h1
    cases h1
  case wsMessage m =>
    exfalso
    simp only [PluginClient.admissible, hp] at hAdm
    cases hAdm
  case wsClose code =>
    exfalso
    simp only [PluginClient.admissible, hp, Option.isSome_none] at hAdm
    cases hAdm
  case wsError =>
    exfalso
    simp only [PluginClient.admissible, hp, Option.isSome_none] at hAdm
    cases hAdm
  case timerFire =>
    exfalso
    simp only [PluginClient.admissible, ht] at hAdm
    cases hAdm
  case relayComplete =>
    exact ⟨hc, hst, hw, hp, ht⟩

theorem dead_run (s : CState) (evs : List (CEvent × ℚ))
    (hInv : deadInv s) (hAdm : admissibleTraceB s evs = true)
    (hNs : evs.all (fun p => !isStartEv p.1) = true) :
    deadInv (PluginClient.run s evs).1 := by
  induction evs generalizing s with
  | nil => exact hInv
  | cons p rest ih =>
    obtain ⟨e, u⟩ := p
    simp only [admissibleTraceB, Bool.and_eq_true] at hAdm
    simp only [List.all_cons, Bool.and_eq_true, Bool.not_eq_true'] at hNs
    exact ih (PluginClient.step s e u).1
      (dead_step s e u hInv hAdm.1 hNs.1) hAdm.2 hNs.2

/-- C2 counterexample: the Node ws transport keeps delivering `message`
events during the closing handshake and `handleMessage` has no `closed`
guard, so a server that sends `auth_ok` right behind `auth_error` makes the
client re-enter `connected` — with no intervening `start()`.  Concretely:
after `start`, `open`, `auth_error` the client is closed and disconnected,
yet the very next (admissible) frame `auth_ok` sets the state back to
`connected`, refuting "remains disconnected / never re-enters connected". -/
theorem auth_error_reentry_counterexample :
    admissibleTraceB (PluginClient.init DEFAULT_RECONNECT_POLICY "jwt0" none none none)
      [(.start, 0), (.wsOpen, 0), (.wsMessage (some authErrJson), 0),
       (.wsMessage (some authOkJson), 0)] = true
    ∧ (PluginClient.run (PluginClient.init DEFAULT_RECONNECT_POLICY "jwt0" none none none)
        [(.start, 0), (.wsOpen, 0), (.wsMessage (some authErrJson), 0)]).1.closed = true
    ∧ (PluginClient.run (PluginClient.init DEFAULT_RECONNECT_POLICY "jwt0" none none none)
        [(.start, 0), (.wsOpen, 0), (.wsMessage (some authErrJson), 0)]).1.status
        = .disconnected
    ∧ (PluginClient.run (PluginClient.init DEFAULT_RECONNECT_POLICY "jwt0" none none none)
        [(.start, 0), (.wsOpen, 0), (.wsMessage (some authErrJson), 0),
         (.wsMessage (some authOkJson), 0)]).1.status = .connected := by
  refine ⟨by decide, by decide, by decide, by decide⟩

/-- C2 amended: processing a valid `auth_error` marks the client closed,
detaches the socket and reports `disconnected`; from that moment, along
EVERY start-free event sequence — further closing-handshake frames
included — the client stays closed, never creates a new socket and never
schedules a reconnect timer (so no reconnection is ever attempted, even
though a zombie `auth_ok` can transiently set the status field back to
`connected`); and once the zombie socket's `close` event has been
delivered, the state is `disconnected` and remains `disconnected` along
every admissible start-free continuation. -/
theorem auth_error_terminal_no_reconnect :
    (∀ (s : CState) (j : Json) (m : String) (u : ℚ),
      safeParseServerMessage j = some (.auth_error m) →
      (PluginClient.step s (.wsMessage (some j)) u).1.closed = true
      ∧ (PluginClient.step s (.wsMessage (some j)) u).1.status = .disconnected
      ∧ (PluginClient.step s (.wsMessage (some j)) u).1.wsAttached = false
      ∧ (PluginClient.step s (.wsMessage (some j)) u).1.socketsCreated = s.socketsCreated
      ∧ (PluginClient.step s (.wsMessage (some j)) u).2
          = [.statusCb .disconnected s.pluginId s.requestCount])
    ∧ (∀ (s : CState) (evs : List (CEvent × ℚ)),
        s.closed = true → evs.all (fun p => !isStartEv p.1) = true →
        (PluginClient.run s evs).1.closed = true
        ∧ (PluginClient.run s evs).1.socketsCreated = s.socketsCreated
        ∧ ∀ o ∈ (PluginClient.run s evs).2, isScheduledOut o = false)
    ∧ ∀ (s : CState) (evs : List (CEvent × ℚ)),
        deadInv s → admissibleTraceB s evs = true →
        evs.all (fun p => !isStartEv p.1) = true →
        deadInv (PluginClient.run s evs).1 := by
  refine ⟨?_, fun s evs hc hNs => closed_run s evs hc hNs,
    fun s evs hInv hAdm hNs => dead_run s evs hInv hAdm hNs⟩
  intro s j m u hparse
  refine ⟨?_, ?_, ?_, ?_, ?_⟩ <;>
    simp [PluginClient.step, PluginClient.handleMessage, hparse,
      PluginClient.setStatus, PluginClient.detachSocket]

/-- Witness for C2: the connected client receives `auth_error`; then a
zombie `auth_ok`, the socket close, and a `stop()` follow — throughout, the
socket count never grows and no reconnect is ever scheduled; and from the
settled post-close state, a further `stop()` leaves it disconnected. -/
theorem auth_error_terminal_no_reconnect_witness :
    safeParseServerMessage authErrJson = some (.auth_error "bad jwt")
    ∧ (PluginClient.step connectedState (.wsMessage (some authErrJson)) 0).1.closed
        = true
    ∧ (PluginClient.step connectedState (.wsMessage (some authErrJson)) 0).1.status
        = .disconnected
    ∧ (PluginClient.run
        (PluginClient.step connectedState (.wsMessage (some authErrJson)) 0).1
        [(.wsMessage (some authOkJson), 0), (.wsClose 1000, 0),
         (.stop, 0)]).1.socketsCreated
        = (PluginClient.step connectedState (.wsMessage (some authErrJson)) 0).1.socketsCreated
    ∧ (∀ o ∈ (PluginClient.run
        (PluginClient.step connectedState (.wsMessage (some authErrJson)) 0).1
        [(.wsMessage (some authOkJson), 0), (.wsClose 1000, 0), (.stop, 0)]).2,
        isScheduledOut o = false)
    ∧ deadInv (PluginClient.run
        (PluginClient.run connectedState
          [(.wsMessage (some authErrJson), 0), (.wsClose 1000, 0)]).1
        [(.stop, 0)]).1 := by
  have h1 := auth_error_terminal_no_reconnect.1 connectedState authErrJson
    "bad jwt" 0 rfl
  have h2 := auth_error_terminal_no_reconnect.2.1
    (PluginClient.step connectedState (.wsMessage (some authErrJson)) 0).1
    [(.wsMessage (some authOkJson), 0), (.wsClose 1000, 0), (.stop, 0)]
    h1.1 (by decide)
  have h3 := auth_error_terminal_no_reconnect.2.2
    (PluginClient.run connectedState
      [(.wsMessage (some authErrJson), 0), (.wsClose 1000, 0)]).1
    [(.stop, 0)] ⟨by decide, by decide, by decide, by decide, by decide⟩
    (by decide) (by decide)
  exact ⟨rfl, h1.1, h1.2.1, h2.2.1, h2.2.2, h3⟩

-- ===========================================================================
-- C4 — malformed / unknown inbound frames are silently discarded
-- ===========================================================================

/-- C4: a frame that fails `JSON.parse`, or parses but fails
`ServerMessageSchema` validation, leaves the client's entire state
(including `pluginId`, the attempt counter, and the socket) unchanged and
produces no output at all — the connection is not torn down.  Moreover the
schema is closed: an unknown `type` value fails validation, a successfully
validated object carries no key outside the closed key set of its type, and
an `auth_ok` whose `protocol` is not exactly the constant `2` fails
validation. -/
theorem invalid_frames_silently_discarded :
    (∀ (s : CState) (u : ℚ),
      PluginClient.step s (.wsMessage none) u = (s, []))
    ∧ (∀ (s : CState) (u : ℚ) (j : Json), safeParseServerMessage j = none →
        PluginClient.step s (.wsMessage (some j)) u = (s, []))
    ∧ (∀ (fields : List (String × Json)) (t : String),
        getField fields "type" = some (.str t) →
        t ∉ (["request", "ping", "auth_ok", "auth_error", "jwt_refresh",
              "price_update_ack"] : List String) →
        safeParseServerMessage (.obj fields) = none)
    ∧ (∀ (fields : List (String × Json)) (msg : ServerMsg),
        safeParseServerMessage (.obj fields) = some msg →
        ∃ t, getField fields "type" = some (.str t)
          ∧ ∀ k ∈ fields.map Prod.fst, k ∈ serverMsgAllowedKeys t)
    ∧ (∀ fields : List (String × Json),
        getField fields "type" = some (.str "auth_ok") →
        getField fields "protocol" ≠ some (.num 2) →
        safeParseServerMessage (.obj fields) = none) := by
  refine ⟨fun s u => rfl, ?_, ?_, ?_, ?_⟩
  · intro s u j h
    simp [PluginClient.step, PluginClient.handleMessage, h]
  · intro fields t hg ht
    simp only [List.mem_cons, List.not_mem_nil, or_false, not_or] at ht
    obtain ⟨h1, h2, h3, h4, h5, h6⟩ := ht
    show parseServerObj fields = none
    unfold parseServerObj
    rw [hg]
    simp [h1, h2, h3, h4, h5, h6, ite_self]
  · intro fields msg h
    replace h : parseServerObj fields = some msg := h
    unfold parseServerObj at h
    split at h
    case _ t heq =>
      by_cases hall : ((fields.map (fun f => f.1)).all
          (fun k => decide (k ∈ serverMsgAllowedKeys t))) = true
      · refine ⟨t, heq, ?_⟩
        intro k hk
        have := List.all_eq_true.mp hall k (by simpa using hk)
        exact of_decide_eq_true this
      · rw [if_neg hall] at h
        cases h
    case _ => cases h
  · intro fields hg hp
    show parseServerObj fields = none
    unfold parseServerObj
    split
    case _ t heq =>
      rw [hg] at heq
      injection heq with heq2
      injection heq2 with heq3
      subst heq3
      by_cases hall : ((fields.map (fun f => f.1)).all
          (fun k => decide (k ∈ serverMsgAllowedKeys "auth_ok"))) = true
      · rw [if_pos hall, if_neg (by decide), if_neg (by decide), if_pos rfl]
        cases hpid : zNonEmptyString (getField fields "pluginId") with
        | none => cases hpp : getField fields "protocol" <;> rfl
        | some pid =>
          cases hpp : getField fields "protocol" with
          | none => rfl
          | some pj =>
            cases pj <;> try rfl
            rename_i p
            show (if p = SIXERR_PROTOCOL_VERSION then some (ServerMsg.auth_ok pid p)
                  else none) = none
            rw [if_neg]
            intro he
            exact hp (by rw [hpp, he]; rfl)
      · rw [if_neg hall]
    case _ => rfl

/-- Witness for C4: a non-object frame, an unknown-type frame, an `auth_ok`
with an extra key, and an `auth_ok` with protocol 3 are all discarded with
the client (here: the connected client) unchanged. -/
theorem invalid_frames_silently_discarded_witness :
    PluginClient.step connectedState (.wsMessage none) 0 = (connectedState, [])
    ∧ PluginClient.step connectedState (.wsMessage (some (.num 5))) 0
        = (connectedState, [])
    ∧ safeParseServerMessage
        (.obj [("type", .str "mystery"), ("x", .null)]) = none
    ∧ safeParseServerMessage
        (.obj [("type", .str "auth_ok"), ("pluginId", .str "p1"),
               ("protocol", .num 2), ("extra", .null)]) = none
    ∧ safeParseServerMessage
        (.obj [("type", .str "auth_ok"), ("pluginId", .str "p1"),
               ("protocol", .num 3)]) = none := by
  refine ⟨invalid_frames_silently_discarded.1 connectedState 0,
    invalid_frames_silently_discarded.2.1 connectedState 0 (.num 5) rfl,
    invalid_frames_silently_discarded.2.2.1 _ "mystery" rfl (by decide),
    ?_,
    invalid_frames_silently_discarded.2.2.2.2 _ rfl (by intro h; cases h)⟩
  · cases hcon : safeParseServerMessage
        (.obj [("type", .str "auth_ok"), ("pluginId", .str "p1"),
               ("protocol", .num 2), ("extra", .null)]) with
    | none => rfl
    | some msg =>
      exfalso
      obtain ⟨t, ht, hkeys⟩ := invalid_frames_silently_discarded.2.2.2.1 _ msg hcon
      rw [show getField
            [("type", Json.str "auth_ok"), ("pluginId", Json.str "p1"),
             ("protocol", Json.num 2), ("extra", Json.null)] "type"
            = some (.str "auth_ok") from rfl] at ht
      injection ht with ht2
      injection ht2 with ht3
      subst ht3
      have := hkeys "extra" (by decide)
      revert this
      decide

-- ===========================================================================
-- C1 — the relay emits exactly one terminal message per request
-- ===========================================================================


theorem getLastD_cons {α : Type} (a d : α) (l : List α) :
    ((a :: l).getLast?).getD d = (l.getLast?).getD a := by
  induction l generalizing a d with
  | nil => rfl
  | cons b t ih => rw [List.getLast?_cons_cons, ih b d, ih b a]

theorem relayCB_foldl_events (id : String) (evts : List Json)
    (acc : List WsMsg) (usage : Json) :
    (evts.map CB.onEvent).foldl (relayCBStep id) (acc, usage)
      = (acc ++ evts.map (WsMsg.stream_event id),
         ((evts.filterMap completedUsage).getLast?).getD usage) := by
  induction evts generalizing acc usage with
  | nil => simp
  | cons e rest ih =>
    simp only [List.map_cons, List.foldl_cons, relayCBStep]
    rw [ih]
    cases hce : completedUsage e with
    | none =>
      simp [hce, List.filterMap_cons, List.append_assoc]
    | some uu =>
      simp only [hce, Option.getD_some, List.filterMap_cons]
      rw [getLastD_cons uu usage]
      simp [List.append_assoc]

theorem handleIncomingRequest_stream_ok (id : String) (body : Option Json)
    (cfg : OpenClawClientConfig) (parse : JsStr → Option Json)
    (status : ℕ) (chunks : List JsStr) (oc : StreamOutcome)
    (unaryB : Except String Json)
    (hs : streamFlag (substituteModel cfg (spreadFields body)) = true)
    (hlt : status < 400) :
    handleIncomingRequest id body cfg parse (.response status chunks oc) unaryB
      = (processChunks parse chunks).map (WsMsg.stream_event id)
        ++ [match oc with
            | .done => .stream_end id (lastCompletedUsage (processChunks parse chunks))
            | .errored m => .error id "plugin_error" m] := by
  unfold handleIncomingRequest
  simp only [hs, if_true]
  have hstep : streamFromOpenClaw parse (.response status chunks oc)
      = if 400 ≤ status then
          [CB.onError (streamHttpErrMsg status (chunks.foldl (· ++ ·) []))]
        else
          (processChunks parse chunks).map CB.onEvent ++
            [match oc with
             | .done => CB.onDone
             | .errored m => CB.onError m] := rfl
  rw [hstep, if_neg (by omega)]
  rw [List.foldl_append, relayCB_foldl_events]
  cases oc with
  | done => rfl
  | errored m => rfl

theorem getLast?_append_singleton {α : Type} (l : List α) (t : α) :
    (l ++ [t]).getLast? = some t := by
  induction l with
  | nil => rfl
  | cons a l' ih =>
    cases l' with
    | nil => rfl
    | cons b l'' =>
      simp only [List.cons_append, List.getLast?_cons_cons]
      simpa using ih

theorem mapStream_filter_terminal (id : String) (evts : List Json) :
    (evts.map (WsMsg.stream_event id)).filter isTerminalMsg = [] := by
  induction evts with
  | nil => rfl
  | cons e rest ih => simp [List.filter_cons, isTerminalMsg, ih]

theorem relayShapeProps (id : String) (evts : List Json) (t : WsMsg)
    (hT : isTerminalMsg t = true) :
    (((evts.map (WsMsg.stream_event id) ++ [t]).filter isTerminalMsg).length = 1)
    ∧ (∃ t2, (evts.map (WsMsg.stream_event id) ++ [t]).getLast? = some t2
        ∧ isTerminalMsg t2 = true)
    ∧ ¬((∃ uu, WsMsg.stream_end id uu ∈ evts.map (WsMsg.stream_event id) ++ [t])
        ∧ (∃ c m, WsMsg.error id c m ∈ evts.map (WsMsg.stream_event id) ++ [t])) := by
  refine ⟨?_, ⟨t, getLast?_append_singleton _ t, hT⟩, ?_⟩
  · rw [List.filter_append, mapStream_filter_terminal]
    simp [List.filter_cons, hT]
  · rintro ⟨⟨uu, hu⟩, ⟨c, m, hm⟩⟩
    simp only [List.mem_append, List.mem_map, List.mem_singleton] at hu hm
    rcases hu with ⟨e, _, he⟩ | hu
    · cases he
    rcases hm with ⟨e, _, he⟩ | hm
    · cases he
    rw [← hu] at hm
    cases hm

theorem handleIncomingRequest_stream_httpError (id : String) (body : Option Json)
    (cfg : OpenClawClientConfig) (parse : JsStr → Option Json)
    (status : ℕ) (chunks : List JsStr) (oc : StreamOutcome)
    (unaryB : Except String Json)
    (hs : streamFlag (substituteModel cfg (spreadFields body)) = true)
    (hst : 400 ≤ status) :
    handleIncomingRequest id body cfg parse (.response status chunks oc) unaryB
      = [.error id "plugin_error" (streamHttpErrMsg status (chunks.foldl (· ++ ·) []))] := by
  unfold handleIncomingRequest
  simp only [hs, if_true]
  have hstep : streamFromOpenClaw parse (.response status chunks oc)
      = if 400 ≤ status then
          [CB.onError (streamHttpErrMsg status (chunks.foldl (· ++ ·) []))]
        else
          (processChunks parse chunks).map CB.onEvent ++
            [match oc with
             | .done => CB.onDone
             | .errored m => CB.onError m] := rfl
  rw [hstep, if_pos hst]
  rfl

/-- C1: for every inbound request id and every backend behavior — a full
JSON response, an SSE event stream followed by end-of-input or a mid-stream
error, an HTTP-error response, or a transport failure — the relay emits
exactly one terminal message, and it is the last message: `response` on
non-streaming success, `stream_end` on streaming end-of-input, and
`error{plugin_error}` on any failure; every decoded backend event is
forwarded as a `stream_event` in arrival order before the terminal
message; `stream_end`'s usage is the usage of the last
`response.completed` event decoded for the id (all-zero counters if none);
and no run ever contains both a `stream_end` and an `error` for the id. -/
theorem handleIncomingRequest_one_terminal (requestId : String) (body : Option Json)
    (cfg : OpenClawClientConfig) (parse : JsStr → Option Json)
    (streamB : StreamBehavior) (unaryB : Except String Json) :
    (((handleIncomingRequest requestId body cfg parse streamB unaryB).filter
        isTerminalMsg).length = 1
      ∧ ∃ t, (handleIncomingRequest requestId body cfg parse streamB unaryB).getLast?
          = some t ∧ isTerminalMsg t = true)
    ∧ (streamFlag (substituteModel cfg (spreadFields body)) = false →
        (∀ r, unaryB = .ok r →
          handleIncomingRequest requestId body cfg parse streamB unaryB
            = [.response requestId r])
        ∧ ∀ m, unaryB = .error m →
          handleIncomingRequest requestId body cfg parse streamB unaryB
            = [.error requestId "plugin_error" m])
    ∧ (streamFlag (substituteModel cfg (spreadFields body)) = true →
        (∀ status chunks oc, streamB = .response status chunks oc → status < 400 →
          handleIncomingRequest requestId body cfg parse streamB unaryB
            = (processChunks parse chunks).map (WsMsg.stream_event requestId)
              ++ [match oc with
                  | .done => WsMsg.stream_end requestId
                      (lastCompletedUsage (processChunks parse chunks))
                  | .errored m => WsMsg.error requestId "plugin_error" m])
        ∧ (∀ status chunks oc, streamB = .response status chunks oc → 400 ≤ status →
            handleIncomingRequest requestId body cfg parse streamB unaryB
              = [.error requestId "plugin_error"
                  (streamHttpErrMsg status (chunks.foldl (· ++ ·) []))])
        ∧ ∀ m, streamB = .requestError m →
            handleIncomingRequest requestId body cfg parse streamB unaryB
              = [.error requestId "plugin_error" m])
    ∧ ¬((∃ uu, WsMsg.stream_end requestId uu
          ∈ handleIncomingRequest requestId body cfg parse streamB unaryB)
        ∧ ∃ c m, WsMsg.error requestId c m
          ∈ handleIncomingRequest requestId body cfg parse streamB unaryB) := by
  have hform : ∃ (evts : List Json) (t : WsMsg),
      handleIncomingRequest requestId body cfg parse streamB unaryB
        = evts.map (WsMsg.stream_event requestId) ++ [t]
      ∧ isTerminalMsg t = true := by
    by_cases hs : streamFlag (substituteModel cfg (spreadFields body)) = true
    · cases streamB with
      | response status chunks oc =>
        by_cases hst : 400 ≤ status
        · exact ⟨[], .error requestId "plugin_error"
              (streamHttpErrMsg status (chunks.foldl (· ++ ·) [])),
            handleIncomingRequest_stream_httpError requestId body cfg parse
              status chunks oc unaryB hs hst, rfl⟩
        · rcases oc with _ | m
          · exact ⟨processChunks parse chunks,
              .stream_end requestId (lastCompletedUsage (processChunks parse chunks)),
              handleIncomingRequest_stream_ok requestId body cfg parse
                status chunks .done unaryB hs (by omega), rfl⟩
          · exact ⟨processChunks parse chunks, .error requestId "plugin_error" m,
              handleIncomingRequest_stream_ok requestId body cfg parse
                status chunks (.errored m) unaryB hs (by omega), rfl⟩
      | requestError m =>
        refine ⟨[], .error requestId "plugin_error" m, ?_, rfl⟩
        unfold handleIncomingRequest
        simp only [hs, if_true]
        rfl
    · replace hs : streamFlag (substituteModel cfg (spreadFields body)) = false := by
        simpa using hs
      cases unaryB with
      | ok r =>
        refine ⟨[], .response requestId r, ?_, rfl⟩
        unfold handleIncomingRequest
        simp [hs]
      | error m =>
        refine ⟨[], .error requestId "plugin_error" m, ?_, rfl⟩
        unfold handleIncomingRequest
        simp [hs]
  obtain ⟨evts, t, hout, hT⟩ := hform
  have props := relayShapeProps requestId evts t hT
  refine ⟨⟨by rw [hout]; exact props.1, by rw [hout]; exact props.2.1⟩, ?_, ?_,
    by rw [hout]; exact props.2.2⟩
  · intro hsf
    constructor
    · intro r hr
      subst hr
      unfold handleIncomingRequest
      simp [hsf]
    · intro m hm
      subst hm
      unfold handleIncomingRequest
      simp [hsf]
  · intro hsf
    refine ⟨?_, ?_, ?_⟩
    · intro status chunks oc heq hlt
      subst heq
      exact handleIncomingRequest_stream_ok requestId body cfg parse
        status chunks oc unaryB hsf hlt
    · intro status chunks oc heq hst
      subst heq
      exact handleIncomingRequest_stream_httpError requestId body cfg parse
        status chunks oc unaryB hsf hst
    · intro m hm
      subst hm
      unfold handleIncomingRequest
      simp only [hsf, if_true]
      rfl

/-- Witness for C1: a streaming request with an empty event stream ends in
exactly `stream_end` with all-zero usage, and a non-streaming request whose
backend call rejects ends in exactly the `plugin_error` message. -/
theorem handleIncomingRequest_one_terminal_witness :
    streamFlag (substituteModel witnessCfg (spreadFields streamingBody)) = true
    ∧ handleIncomingRequest "r1" streamingBody witnessCfg parseNone
        (.response 200 [] .done) (.ok .null)
        = [.stream_end "r1" zeroUsage]
    ∧ streamFlag (substituteModel witnessCfg (spreadFields (some (.obj [])))) = false
    ∧ handleIncomingRequest "r1" (some (.obj [])) witnessCfg parseNone
        (.response 200 [] .done) (.error "boom")
        = [.error "r1" "plugin_error" "boom"] := by
  refine ⟨rfl, ?_, rfl, ?_⟩
  · have h := ((handleIncomingRequest_one_terminal "r1" streamingBody witnessCfg
      parseNone (.response 200 [] .done) (.ok .null)).2.2.1 rfl).1 200 [] .done rfl
      (by omega)
    exact h.trans rfl
  · exact ((handleIncomingRequest_one_terminal "r1" (some (.obj [])) witnessCfg
      parseNone (.response 200 [] .done) (.error "boom")).2.1 rfl).2 "boom" rfl

-- ===========================================================================
-- C5 — the payment flow retries exactly once
-- ===========================================================================

/-- C5: `postWith402Handling` issues at most two HTTP calls; the first call
carries the original headers and body; when the first call returns 402 with
a body advertising a permit2 scheme, exactly one retry is issued whose body
is the identical string and whose headers are the original headers plus the
single additional `X-PAYMENT` header carrying the encoded authorization;
and the retry's response — 402 included — is returned as-is, never retried
again. -/
theorem postWith402Handling_retries_once
    (fetchImpl : ℕ → HttpRequest → HttpResponse)
    (sign : Json → Option Json → String)
    (configMaxAmount : Option String) (url : String) (body : String)
    (maxAmountOverride : Option String) :
    ((postWith402Handling fetchImpl sign configMaxAmount url body
        maxAmountOverride).2.length ≤ 2)
    ∧ ((postWith402Handling fetchImpl sign configMaxAmount url body
        maxAmountOverride).2.head?
        = some ⟨url, "POST", [("Content-Type", "application/json")], body⟩)
    ∧ ((fetchImpl 0 ⟨url, "POST", [("Content-Type", "application/json")], body⟩).status
          ≠ 402 →
        postWith402Handling fetchImpl sign configMaxAmount url body maxAmountOverride
          = (.ok (fetchImpl 0 ⟨url, "POST", [("Content-Type", "application/json")], body⟩),
             [⟨url, "POST", [("Content-Type", "application/json")], body⟩]))
    ∧ ∀ pb requirements,
        (fetchImpl 0 ⟨url, "POST", [("Content-Type", "application/json")], body⟩).status
          = 402 →
        (fetchImpl 0 ⟨url, "POST", [("Content-Type", "application/json")], body⟩).jsonBody
          = some pb →
        findPermit2 pb = some requirements →
        postWith402Handling fetchImpl sign configMaxAmount url body maxAmountOverride
          = (.ok (fetchImpl 1 ⟨url, "POST",
                [("Content-Type", "application/json"),
                 ("X-PAYMENT", sign requirements
                    (chooseAmount maxAmountOverride configMaxAmount requirements))],
                body⟩),
             [⟨url, "POST", [("Content-Type", "application/json")], body⟩,
              ⟨url, "POST",
                [("Content-Type", "application/json"),
                 ("X-PAYMENT", sign requirements
                    (chooseAmount maxAmountOverride configMaxAmount requirements))],
                body⟩]) := by
  refine ⟨?_, ?_, ?_, ?_⟩
  · unfold postWith402Handling
    by_cases h0 : (fetchImpl 0 ⟨url, "POST", [("Content-Type", "application/json")],
        body⟩).status = 402
    · rw [if_neg (by simp [h0])]
      cases hjb : (fetchImpl 0 ⟨url, "POST", [("Content-Type", "application/json")],
          body⟩).jsonBody with
      | none => simp [hjb]
      | some pb0 => cases hf : findPermit2 pb0 <;> simp [hjb, hf]
    · rw [if_pos h0]
      simp
  · unfold postWith402Handling
    by_cases h0 : (fetchImpl 0 ⟨url, "POST", [("Content-Type", "application/json")],
        body⟩).status = 402
    · rw [if_neg (by simp [h0])]
      cases hjb : (fetchImpl 0 ⟨url, "POST", [("Content-Type", "application/json")],
          body⟩).jsonBody with
      | none => simp [hjb]
      | some pb0 => cases hf : findPermit2 pb0 <;> simp [hjb, hf]
    · rw [if_pos h0]
      simp
  · intro hne
    unfold postWith402Handling
    rw [if_pos hne]
  · intro pb requirements h402 hjb hf
    unfold postWith402Handling
    rw [if_neg (by simp [h402])]
    simp [hjb, hf]

/-- Witness for C5: with a first response of 402 + permit2 scheme and a
retry that returns 402 again, exactly the two calls are made, the retry
carries the one extra header, and the second 402 is surfaced unchanged. -/
theorem postWith402Handling_retries_once_witness :
    (fetchW 0 ⟨"https://sixerr.ai/v1/responses", "POST",
        [("Content-Type", "application/json")], "BODY"⟩).status = 402
    ∧ (fetchW 0 ⟨"https://sixerr.ai/v1/responses", "POST",
        [("Content-Type", "application/json")], "BODY"⟩).jsonBody = some pb402
    ∧ findPermit2 pb402
        = some (.obj [("scheme", .str "permit2"), ("maxCost", .str "42")])
    ∧ postWith402Handling fetchW signW none "https://sixerr.ai/v1/responses"
        "BODY" none
        = (.ok ⟨402, none⟩,
           [⟨"https://sixerr.ai/v1/responses", "POST",
             [("Content-Type", "application/json")], "BODY"⟩,
            ⟨"https://sixerr.ai/v1/responses", "POST",
             [("Content-Type", "application/json"), ("X-PAYMENT", "SIG")],
             "BODY"⟩]) := by
  refine ⟨rfl, rfl, rfl, ?_⟩
  have h := (postWith402Handling_retries_once fetchW signW none
    "https://sixerr.ai/v1/responses" "BODY" none).2.2.2 pb402
    (.obj [("scheme", .str "permit2"), ("maxCost", .str "42")]) rfl rfl rfl
  exact h.trans rfl

-- ===========================================================================
-- C9 — the signing proxy's error routing
-- ===========================================================================

/-- C9: a method/path pair matching neither `GET /v1/providers` nor
`POST /v1/responses[/<id>]` yields the 404 not-found result without any
upstream call; a matching POST whose body is not valid JSON yields the 400
client-error result with no upstream call attempted; and a failing upstream
call — on either route — yields the distinct 502 upstream-error result
carrying the failure message. -/
theorem handleRequest_error_routing
    (listProviders : Except String Json)
    (respondRaw : Except String UpstreamResponse)
    (method : String) (url : JsStr) (bodyParse : Option Json) :
    (¬(method = "GET" ∧ url = "/v1/providers".data) →
      ¬(method = "POST" ∧ (matchResponsesPath url).isSome = true) →
      handleRequest listProviders respondRaw method url bodyParse = (.notFound, 0)
      ∧ proxyStatus ProxyOutcome.notFound = 404)
    ∧ (method = "POST" → (matchResponsesPath url).isSome = true → bodyParse = none →
        handleRequest listProviders respondRaw method url bodyParse = (.badRequest, 0)
        ∧ proxyStatus ProxyOutcome.badRequest = 400)
    ∧ (∀ m, method = "GET" → url = "/v1/providers".data →
        listProviders = .error m →
        handleRequest listProviders respondRaw method url bodyParse
          = (.upstreamError m, 1)
        ∧ proxyStatus (ProxyOutcome.upstreamError m) = 502)
    ∧ ∀ m, method = "POST" → (matchResponsesPath url).isSome = true →
        bodyParse ≠ none → respondRaw = .error m →
        handleRequest listProviders respondRaw method url bodyParse
          = (.upstreamError m, 1) := by
  refine ⟨?_, ?_, ?_, ?_⟩
  · intro h1 h2
    refine ⟨?_, rfl⟩
    unfold handleRequest
    rw [if_neg (by simpa using h1)]
    by_cases hm : method = "POST"
    · cases hmr : matchResponsesPath url with
      | none => simp [hm, hmr]
      | some v => exact absurd ⟨hm, by rw [hmr]; rfl⟩ h2
    · simp [hm]
  · intro hm hmo hb
    refine ⟨?_, rfl⟩
    obtain ⟨v, hv⟩ := Option.isSome_iff_exists.mp hmo
    subst hb
    unfold handleRequest
    rw [if_neg (by simp [hm])]
    simp [hm, hv, handleResponses]
  · intro m h1 h2 hlp
    subst hlp
    refine ⟨?_, rfl⟩
    unfold handleRequest
    rw [if_pos (by simp [h1, h2])]
  · intro m hm hmo hb hrr
    obtain ⟨v, hv⟩ := Option.isSome_iff_exists.mp hmo
    obtain ⟨b, hb2⟩ := Option.ne_none_iff_exists'.mp hb
    subst hb2
    subst hrr
    unfold handleRequest
    rw [if_neg (by simp [hm])]
    simp [hm, hv, handleResponses]

/-- Witness for C9 on concrete requests: an unknown route 404s with no
upstream call, a bad JSON body 400s with no upstream call, and failing
upstream calls 502 on both routes. -/
theorem handleRequest_error_routing_witness :
    handleRequest (.ok .null) (.error "unused") "DELETE" ("/x".data) none
      = (.notFound, 0)
    ∧ handleRequest (.ok .null) (.error "unused") "POST"
        ("/v1/responses/agent1".data) none = (.badRequest, 0)
    ∧ handleRequest (.error "providers down") (.error "unused") "GET"
        ("/v1/providers".data) none = (.upstreamError "providers down", 1)
    ∧ handleRequest (.ok .null) (.error "upstream boom") "POST"
        ("/v1/responses".data) (some (.obj [])) = (.upstreamError "upstream boom", 1) :=
  ⟨(handleRequest_error_routing (.ok .null) (.error "unused") "DELETE"
      ("/x".data) none).1 (by decide) (by decide) |>.1,
   (handleRequest_error_routing (.ok .null) (.error "unused") "POST"
      ("/v1/responses/agent1".data) none).2.1 rfl (by decide) rfl |>.1,
   (handleRequest_error_routing (.error "providers down") (.error "unused") "GET"
      ("/v1/providers".data) none).2.2.1 "providers down" rfl rfl rfl |>.1,
   (handleRequest_error_routing (.ok .null) (.error "upstream boom") "POST"
      ("/v1/responses".data) (some (.obj []))).2.2.2 "upstream boom" rfl (by decide)
      (by intro h; cases h) rfl⟩

-- ===========================================================================
-- C8 — parseChainId and JS Number() semantics
-- ===========================================================================

theorem digit_cases (c : Char) (h : isDigitCh c = true) :
    c = '0' ∨ c = '1' ∨ c = '2' ∨ c = '3' ∨ c = '4' ∨
    c = '5' ∨ c = '6' ∨ c = '7' ∨ c = '8' ∨ c = '9' := by
  simp only [isDigitCh, Bool.or_eq_true, decide_eq_true_eq] at h
  tauto

theorem digit_props (c : Char) (h : isDigitCh c = true) :
    jsIsSpace c = false ∧ notExpCh c = true ∧ notDotCh c = true
    ∧ c ≠ '+' ∧ c ≠ '-' ∧ c ≠ 'I' ∧ c ≠ 'x' ∧ c ≠ 'X'
    ∧ c ≠ 'o' ∧ c ≠ 'O' ∧ c ≠ 'b' ∧ c ≠ 'B' := by
  rcases digit_cases c h with h | h | h | h | h | h | h | h | h | h <;> subst h <;>
    refine ⟨by decide, by decide, by decide, by decide, by decide, by decide,
      by decide, by decide, by decide, by decide, by decide, by decide⟩

theorem dropWhile_eq_self_of_not (p : Char → Bool) (l : JsStr)
    (h : ∀ x ∈ l, p x = false) : l.dropWhile p = l := by
  cases l with
  | nil => rfl
  | cons a t => simp [List.dropWhile_cons, h a (List.mem_cons_self a t)]

theorem jsTrim_digits (ds : JsStr) (h : ds.all isDigitCh = true) :
    jsTrim ds = ds := by
  have hall := List.all_eq_true.mp h
  have h1 : ds.dropWhile jsIsSpace = ds :=
    dropWhile_eq_self_of_not _ _ (fun x hx => (digit_props x (hall x hx)).1)
  have h2 : ds.reverse.dropWhile jsIsSpace = ds.reverse :=
    dropWhile_eq_self_of_not _ _ (fun x hx =>
      (digit_props x (hall x (List.mem_reverse.mp hx))).1)
  unfold jsTrim
  rw [h1, h2, List.reverse_reverse]

theorem parseUnsignedDec_digits (ds : JsStr) (hne : ds ≠ [])
    (h : ds.all isDigitCh = true) :
    parseUnsignedDec ds = some ((digitsToNat ds : ℕ) : ℚ) := by
  have hall := List.all_eq_true.mp h
  have hm : ds.takeWhile notExpCh = ds :=
    List.takeWhile_eq_self_iff.mpr (fun x hx => (digit_props x (hall x hx)).2.1)
  have he : ds.dropWhile notExpCh = [] :=
    List.dropWhile_eq_nil_iff.mpr (fun x hx => (digit_props x (hall x hx)).2.1)
  have hip : ds.takeWhile notDotCh = ds :=
    List.takeWhile_eq_self_iff.mpr (fun x hx => (digit_props x (hall x hx)).2.2.1)
  have hdr : ds.dropWhile notDotCh = [] :=
    List.dropWhile_eq_nil_iff.mpr (fun x hx => (digit_props x (hall x hx)).2.2.1)
  unfold parseUnsignedDec
  dsimp only
  rw [hm, he, hip, hdr]
  simp [h, hne]

theorem parseDec_digits (ds : JsStr) (hne : ds ≠ [])
    (h : ds.all isDigitCh = true) :
    parseDec ds = some (.fin ((digitsToNat ds : ℕ) : ℚ)) := by
  have hall := List.all_eq_true.mp h
  have hbody : parseDecBody false ds = some (.fin ((digitsToNat ds : ℕ) : ℚ)) := by
    unfold parseDecBody
    rw [if_neg, parseUnsignedDec_digits ds hne h]
    · rfl
    · intro heq
      cases ds with
      | nil => exact hne rfl
      | cons c tl =>
        have hd := (digit_props c (hall c (List.mem_cons_self c tl))).2.2.2.2.2.1
        rw [show ("Infinity".data) = 'I' :: "nfinity".data from rfl] at heq
        exact hd (List.head_eq_of_cons_eq heq)
  cases ds with
  | nil => exact absurd rfl hne
  | cons c tl =>
    have hc := digit_cases c (hall c (List.mem_cons_self c tl))
    unfold parseDec
    rcases hc with h | h | h | h | h | h | h | h | h | h <;> subst h <;> exact hbody

theorem coreNumber_digits (ds : JsStr) (hne : ds ≠ [])
    (h : ds.all isDigitCh = true) :
    coreNumber ds = some (.fin ((digitsToNat ds : ℕ) : ℚ)) := by
  have hall := List.all_eq_true.mp h
  have hpd := parseDec_digits ds hne h
  cases ds with
  | nil => exact absurd rfl hne
  | cons c tl =>
    cases tl with
    | nil =>
      have hc := digit_cases c (hall c (by simp))
      rcases hc with h' | h' | h' | h' | h' | h' | h' | h' | h' | h' <;> subst h' <;>
        exact hpd
    | cons c2 tl2 =>
      have hc := digit_cases c (hall c (by simp))
      have hc2 := digit_cases c2 (hall c2 (by simp))
      rcases hc with h' | h' | h' | h' | h' | h' | h' | h' | h' | h' <;> subst h' <;>
        first
        | exact hpd
        | (rcases hc2 with h2 | h2 | h2 | h2 | h2 | h2 | h2 | h2 | h2 | h2 <;> subst h2 <;>
            exact hpd)

theorem jsNumber_digits (ds : JsStr) (hne : ds ≠ [])
    (h : ds.all isDigitCh = true) :
    jsNumber ds = some (.fin ((digitsToNat ds : ℕ) : ℚ)) := by
  unfold jsNumber
  rw [jsTrim_digits ds h, if_neg hne]
  exact coreNumber_digits ds hne h

/-- C8 counterexample: the claim says `parseChainId` throws for every
network string whose final colon-separated segment is not parseable as an
integer — but `Number("") = 0` in JS, so the empty final segment of
`"eip155:"` yields chain id 0 without throwing, and the non-integer
segment `"1.5"` is likewise accepted and returned as 1.5. -/
theorem parseChainId_nonintegers_counterexample :
    parseChainId ("eip155:".data) = .ok (.fin 0)
    ∧ ∃ q : ℚ, parseChainId ("eip155:1.5".data) = .ok (.fin q) := by
  exact ⟨rfl, _, rfl⟩

/-- C8 amended: `parseChainId` returns `Number(final segment)` whenever
that conversion is not `NaN` — in particular the integer itself for a bare
integer or for a compound identifier whose final colon-separated segment is
a digit string — and throws exactly when the conversion is `NaN` (so empty
final segments yield 0 and non-integer numerics are accepted rather than
rejected). -/
theorem parseChainId_spec (network : JsStr) :
    (∀ n, jsNumber ((jsSplit [':'] network).getLastD []) = some n →
        parseChainId network = .ok n)
    ∧ (jsNumber ((jsSplit [':'] network).getLastD []) = none →
        parseChainId network
          = .error ("Cannot parse chain ID from network: " ++ String.mk network))
    ∧ ∀ seg, (jsSplit [':'] network).getLastD [] = seg → seg ≠ [] →
        seg.all isDigitCh = true →
        parseChainId network = .ok (.fin ((digitsToNat seg : ℕ) : ℚ)) := by
  refine ⟨?_, ?_, ?_⟩
  · intro n hn
    unfold parseChainId
    dsimp only
    rw [hn]
  · intro hn
    unfold parseChainId
    dsimp only
    rw [hn]
  · intro seg hseg hne hdig
    unfold parseChainId
    dsimp only
    rw [hseg, jsNumber_digits seg hne hdig]

/-- Witness for C8 on `"eip155:8453"` (compound identifier) and `"8453"`
(bare integer). -/
theorem parseChainId_spec_witness :
    parseChainId ("eip155:8453".data) = .ok (.fin 8453)
    ∧ parseChainId ("8453".data) = .ok (.fin 8453) := by
  constructor
  · exact ((parseChainId_spec ("eip155:8453".data)).2.2 ("8453".data)
      (by decide) (by decide) (by decide)).trans rfl
  · exact ((parseChainId_spec ("8453".data)).2.2 ("8453".data)
      (by decide) (by decide) (by decide)).trans rfl
